import Mathlib

/-!
Shallow embedding of the two source files of the elia repository:
  elia_chat/config.py                      (model catalog and launch config)
  elia_chat/screens/message_info_modal.py  (message-info modal screen)

Python/pydantic semantics are embedded as follows: pydantic BaseModel
constructors become explicit constructor functions taking an `Option`
per field (`none` = argument not passed, so the field default applies);
pydantic lax validation of an `int`-annotated field from a numeric input
is embedded over `Rat` (accept exactly the integral rationals, mirroring
how pydantic coerces an integral float and rejects a fractional one);
fallible construction returns `Except`.  External collaborators
(tiktoken's `encoding_for_model`, the timestamp formatter from
`elia_chat.time_display`, which is not part of the provided sources) are
parameters of the embedding, constrained only by the interface the spec
gives them.
-/

set_option autoImplicit false

/-- One chat-model descriptor, from `class EliaChatModel(BaseModel)` in
config.py.  `api_key` is a `SecretStr` in the source; only its value is
relevant here.  `api_base` is an `AnyHttpUrl`; it is kept as the raw
string.  The source annotates `temperature: int` but gives it the float
default `1.0`; since pydantic does not validate defaults
(`validate_default` is off), the stored value can be the non-integer
`1.0`, so the field is embedded as `Rat`.  `max_retries: int` has
default `0` and no lower-bound constraint. -/
structure EliaChatModel where
  name : String
  display_name : Option String := none
  provider : Option String := none
  api_key : Option String := none
  api_base : Option String := none
  organization : Option String := none
  description : Option String := none
  product : Option String := none
  temperature : Rat := 1
  max_retries : Int := 0
deriving DecidableEq, Repr

/-- Pydantic lax validation of a numeric input against an `int`
annotation: an integral number is coerced to the integer, a number with
a fractional part is rejected (pydantic error
`int_from_float`, "Input should be a valid integer, got a number with a
fractional part"). -/
def validate_int (v : Rat) : Except String Int :=
  if v.den = 1 then .ok v.num
  else .error "Input should be a valid integer, got a number with a fractional part"

/-- The pydantic constructor of `EliaChatModel`.  `none` means the
keyword argument was not passed.  String-typed fields are taken already
well-typed (their pydantic validation is the identity on strings); the
two `int`-annotated fields validate their numeric input with
`validate_int`.  When `temperature` is not passed, the unvalidated
default `1.0` is stored. -/
def EliaChatModel.make (name : String)
    (display_name provider api_key api_base organization description product :
      Option String := none)
    (temperature : Option Rat := none) (max_retries : Option Rat := none) :
    Except String EliaChatModel := do
  let t : Rat ←
    match temperature with
    | none => pure (1 : Rat)
    | some v => (validate_int v).map (fun i => (i : Rat))
  let r : Int ←
    match max_retries with
    | none => pure 0
    | some v => validate_int v
  pure { name := name, display_name := display_name, provider := provider,
         api_key := api_key, api_base := api_base, organization := organization,
         description := description, product := product,
         temperature := t, max_retries := r }

/-- `get_builtin_openai_models` from config.py: the hardcoded list of
the two builtin OpenAI models. -/
def get_builtin_openai_models : List EliaChatModel :=
  [ { name := "gpt-3.5-turbo",
      display_name := some "GPT-3.5 Turbo",
      provider := some "OpenAI",
      product := some "ChatGPT",
      description := some "The fastest ChatGPT model, great for most everyday tasks" },
    { name := "gpt-4-turbo",
      display_name := some "GPT-4 Turbo",
      provider := some "OpenAI",
      product := some "ChatGPT",
      description := some ("The most powerful ChatGPT model, capable of " ++
        "complex tasks which require advanced reasoning") } ]

/-- `get_builtin_anthropic_models` from config.py: the hardcoded list of
the three builtin Anthropic models. -/
def get_builtin_anthropic_models : List EliaChatModel :=
  [ { name := "claude-3-haiku-20240307",
      display_name := some "Claude 3 Haiku",
      provider := some "Anthropic",
      product := some "Claude 3",
      description := some "Fastest and most compact model for near-instant responsiveness" },
    { name := "claude-3-sonnet-20240229",
      display_name := some "Claude 3 Sonnet",
      provider := some "Anthropic",
      product := some "Claude 3",
      description := some "Ideal balance of intelligence and speed for enterprise workloads" },
    { name := "claude-3-opus-20240229",
      display_name := some "Claude 3 Opus",
      provider := some "Anthropic",
      product := some "Claude 3",
      description := some "Most powerful model for highly complex tasks" } ]

/-- `get_builtin_models` from config.py: OpenAI builtins followed by
Anthropic builtins. -/
def get_builtin_models : List EliaChatModel :=
  get_builtin_openai_models ++ get_builtin_anthropic_models

/-- `class LaunchConfig(BaseModel)` from config.py, with
`model_config = ConfigDict(frozen=True)`. -/
structure LaunchConfig where
  default_model : String
  system_prompt : String
  models : List EliaChatModel
  builtin_models : List EliaChatModel
deriving DecidableEq, Repr

/-- The pydantic constructor of `LaunchConfig`.  `env_prompt` is the
value of the environment variable `ELIA_SYSTEM_PROMPT` when config.py
was imported (`os.getenv` runs at class-definition time); `none` = the
variable is unset.  Each remaining `Option` argument is a keyword
argument of the constructor, `none` = not passed.

Note on `builtin_models`: the source declares it with
`Field(default_factory=get_builtin_models, init=False)`, but the `init`
flag of `Field` only affects pydantic dataclasses; on a `BaseModel` the
field stays part of the validated constructor input, so a caller-passed
`builtin_models` list overrides the default factory.  The constructor
accepts every well-typed input; it has no failure case. -/
def LaunchConfig.make (env_prompt : Option String)
    (default_model : Option String := none)
    (system_prompt : Option String := none)
    (models : Option (List EliaChatModel) := none)
    (builtin_models : Option (List EliaChatModel) := none) : LaunchConfig :=
  { default_model := default_model.getD "gpt-3.5-turbo",
    system_prompt :=
      system_prompt.getD (env_prompt.getD "You are a helpful assistant named Elia."),
    models := models.getD [],
    builtin_models := builtin_models.getD get_builtin_models }

/-- The `all_models` computed property of `LaunchConfig`:
`self.models + self.builtin_models`. -/
def LaunchConfig.all_models (c : LaunchConfig) : List EliaChatModel :=
  c.models ++ c.builtin_models

/-- A message as consumed by the modal (`langchain.schema.BaseMessage`):
`content` (possibly absent) and the `additional_kwargs` mapping, of
which only an integer `timestamp` entry is read. -/
structure PyMessage where
  content : Option String
  additional_kwargs : List (String × Int)
deriving DecidableEq, Repr

/-- A tokenizer bound to one model, the result of
`tiktoken.encoding_for_model`: encodes text to a sequence of integer
token identifiers. -/
structure Encoder where
  encode : String → List Nat

/-- Python `self.message.content or ""`: `or` yields `""` when the
content is `None` or falsy (the empty string). -/
def pyStrOr (content : Option String) : String :=
  match content with
  | none => ""
  | some s => if s = "" then "" else s

/-- Python `d.get(key, default)` on the `additional_kwargs` mapping. -/
def dictGetD (kwargs : List (String × Int)) (key : String) (default : Int) : Int :=
  match kwargs.find? (fun p => p.1 = key) with
  | some p => p.2
  | none => default

/-- The identifiers of the three `Tab` widgets yielded by `compose`:
`Tab("Markdown", id="markdown-content")`, `Tab("Tokens", id="tokens")`,
`Tab("Metadata", id="metadata")`. -/
inductive TabId where
  | markdown_content
  | tokens
  | metadata
deriving DecidableEq, Repr

/-- The `id` string of each tab. -/
def TabId.id : TabId → String
  | .markdown_content => "markdown-content"
  | .tokens => "tokens"
  | .metadata => "metadata"

/-- The state of the `ContentSwitcher`: its `current` selection. -/
structure SwitcherState where
  current : Option String
deriving DecidableEq, Repr

/-- The `ContentSwitcher` as constructed by `compose`:
`ContentSwitcher(initial="markdown-content")`. -/
def initialSwitcher : SwitcherState :=
  { current := some "markdown-content" }

/-- The `tab_activated` handler of `MessageInfo` (decorated
`@on(Tabs.TabActivated)`): sets the content switcher current selection
to the activated tab identifier, unconditionally. -/
def tab_activated (_s : SwitcherState) (t : TabId) : SwitcherState :=
  { current := some t.id }

/-- How composing the modal can fail: the tokenizer lookup raised (a
`KeyError` out of `tiktoken.encoding_for_model`), or the read of
`token_count` in the footer f-string found the variable unbound because
the `if self.model_name:` guard was false (a Python `NameError`). -/
inductive ComposeError where
  | tokenizerLookup (e : String)
  | nameError
deriving DecidableEq, Repr

/-- The widget tree produced by one run of `MessageInfo.compose`: the
tab strip, the content switcher with its three views, and the footer
statics. -/
structure ComposedModal where
  tabIds : List String
  switcherInitial : String
  markdownContent : String
  tokensView : List Nat
  timestampText : String
  tokenCountText : String
deriving DecidableEq, Repr

/-- `MessageInfo.compose` from message_info_modal.py, run to completion
(the hosting framework iterates the generator fully while mounting).
`lookup` is `tiktoken.encoding_for_model` and `fmt` is
`format_timestamp` from `elia_chat.time_display`, both external to the
provided sources and therefore parameters.  Faithful points: the
tokenizer lookup has no local handler, so its error aborts composition;
`token_count` is assigned only under the truthiness guard
`if self.model_name:` (true exactly when the string is non-empty), and
reading it unassigned in the footer f-string is a `NameError`. -/
def MessageInfo.compose (lookup : String → Except String Encoder)
    (fmt : Int → String) (message : PyMessage) (model_name : String) :
    Except ComposeError ComposedModal :=
  let markdown_content := pyStrOr message.content
  match lookup model_name with
  | .error e => .error (.tokenizerLookup e)
  | .ok encoder =>
    let tokens := encoder.encode markdown_content
    let token_count : Option Nat :=
      if model_name = "" then none else some tokens.length
    let timestamp := dictGetD message.additional_kwargs "timestamp" 0
    let timestamp_string := fmt timestamp
    match token_count with
    | none => .error .nameError
    | some n =>
      .ok { tabIds := [TabId.markdown_content.id, TabId.tokens.id, TabId.metadata.id],
            switcherInitial := "markdown-content",
            markdownContent := markdown_content,
            tokensView := tokens,
            timestampText := "Message sent at " ++ timestamp_string,
            tokenCountText := toString n ++ " tokens" }

/-- A concrete encoder used to instantiate theorems: one token per
character.  It encodes the empty string to the empty token sequence. -/
def demoEncoder : Encoder :=
  { encode := fun s => s.data.map Char.toNat }

/-- A concrete tokenizer lookup used to instantiate theorems: it knows
the single model name "gpt-3.5-turbo" and raises on every other name,
including the empty string, as tiktoken does. -/
def demoLookup (name : String) : Except String Encoder :=
  if name = "gpt-3.5-turbo" then .ok demoEncoder else .error "KeyError"

/-- A concrete timestamp formatter used to instantiate theorems. -/
def demoFmt (t : Int) : String :=
  toString t

/-- A concrete message with content and no metadata. -/
def demoMsg : PyMessage :=
  { content := some "hi", additional_kwargs := [] }

/-- A concrete message with absent content and no metadata. -/
def emptyMsg : PyMessage :=
  { content := none, additional_kwargs := [] }

/-- C1: for every constructed LaunchConfig (constructor arguments
arbitrary, builtin_models left to its default factory), all_models is
the user models list followed by builtin_models, preserving order: it
equals models ++ get_builtin_models, has length n + 5, begins with the n
user models, and with empty models it equals the 5-entry builtin list
whose 2 OpenAI entries precede its 3 Anthropic entries.  No
de-duplication is performed (the result is the plain concatenation). -/
theorem all_models_is_user_then_builtin (env dm sp : Option String)
    (ms : List EliaChatModel) :
    (LaunchConfig.make env dm sp (some ms)).all_models = ms ++ get_builtin_models ∧
    (LaunchConfig.make env dm sp (some ms)).all_models.length = ms.length + 5 ∧
    (LaunchConfig.make env dm sp (some ms)).all_models.take ms.length = ms ∧
    (LaunchConfig.make env dm sp (some [])).all_models = get_builtin_models ∧
    get_builtin_models.length = 5 ∧
    get_builtin_models = get_builtin_openai_models ++ get_builtin_anthropic_models ∧
    get_builtin_openai_models.length = 2 ∧
    get_builtin_anthropic_models.length = 3 := by
  refine ⟨rfl, ?_, ?_, rfl, rfl, rfl, rfl, rfl⟩
  · show (ms ++ get_builtin_models).length = ms.length + 5
    simp [get_builtin_models, get_builtin_openai_models, get_builtin_anthropic_models]
  · show (ms ++ get_builtin_models).take ms.length = ms
    exact List.take_left ms get_builtin_models

/-- C4: the builtin-catalog functions are fixed pure values: the OpenAI
list has exactly the two names gpt-3.5-turbo and gpt-4-turbo in order,
the Anthropic list exactly the three claude-3 names in order,
get_builtin_models is their concatenation with the OpenAI entries first,
and each function evaluated twice gives equal values. -/
theorem builtin_catalog_fixed :
    get_builtin_openai_models.map EliaChatModel.name = ["gpt-3.5-turbo", "gpt-4-turbo"] ∧
    get_builtin_openai_models.length = 2 ∧
    get_builtin_anthropic_models.map EliaChatModel.name =
      ["claude-3-haiku-20240307", "claude-3-sonnet-20240229", "claude-3-opus-20240229"] ∧
    get_builtin_anthropic_models.length = 3 ∧
    get_builtin_models = get_builtin_openai_models ++ get_builtin_anthropic_models ∧
    get_builtin_openai_models = get_builtin_openai_models ∧
    get_builtin_anthropic_models = get_builtin_anthropic_models ∧
    get_builtin_models = get_builtin_models :=
  ⟨rfl, rfl, rfl, rfl, rfl, rfl, rfl, rfl⟩

/-- C5 counter-evidence: builtin_models IS settable by the caller.
Field(init=False) only affects pydantic dataclasses, so on the BaseModel
LaunchConfig a passed builtin_models keyword overrides the default
factory: constructing with builtin_models=[] yields a config whose
builtin_models is empty, not the fixed 5-entry builtin list. -/
theorem builtin_models_caller_settable :
    (LaunchConfig.make none none none none (some [])).builtin_models = [] ∧
    (LaunchConfig.make none none none none (some [])).builtin_models ≠ get_builtin_models ∧
    (LaunchConfig.make none).builtin_models = get_builtin_models := by
  refine ⟨rfl, ?_, rfl⟩
  intro h
  exact absurd (congrArg List.length h) (by decide)

/-- C6: a LaunchConfig constructed with no arguments has default_model
"gpt-3.5-turbo" and empty models; its system_prompt is the value of
ELIA_SYSTEM_PROMPT when set (set to "X" yields "X") and the literal
default otherwise; and no input is rejected (the constructor is total:
in particular a default_model naming no known model is stored as-is). -/
theorem launch_config_defaults (env : Option String) :
    (LaunchConfig.make env).default_model = "gpt-3.5-turbo" ∧
    (LaunchConfig.make env).models = [] ∧
    (LaunchConfig.make env).system_prompt =
      env.getD "You are a helpful assistant named Elia." ∧
    (LaunchConfig.make (some "X")).system_prompt = "X" ∧
    (LaunchConfig.make none).system_prompt = "You are a helpful assistant named Elia." ∧
    (LaunchConfig.make env (some "not-a-real-model")).default_model = "not-a-real-model" :=
  ⟨rfl, rfl, rfl, rfl, rfl, rfl⟩

/-- C9 counter-evidence: temperature is annotated int in the source, so
pydantic rejects the fractional value 1/2 (the claim says every numeric
t is accepted and stored unchanged); the default, being unvalidated, is
the float 1.0; and max_retries has no non-negativity constraint, so -1
is accepted and stored (the claim says every constructed model has
max_retries >= 0). -/
theorem temperature_int_annotation_rejects_fractional :
    EliaChatModel.make "m" none none none none none none none (some (1/2)) none =
      .error "Input should be a valid integer, got a number with a fractional part" ∧
    (EliaChatModel.make "m").map EliaChatModel.temperature = .ok 1 ∧
    (EliaChatModel.make "m" none none none none none none none none (some (-1))).map
      EliaChatModel.max_retries = .ok (-1) := by
  refine ⟨?_, rfl, rfl⟩
  have h : ((1 : Rat)/2).den = 2 := by norm_num
  simp [EliaChatModel.make, validate_int, h, Except.map, Functor.map, Bind.bind,
    Except.bind]

/-- Helper: when the tokenizer lookup succeeds and the model name is
non-empty (the truthiness guard), compose runs to completion and
produces exactly this widget tree. -/
theorem MessageInfo.compose_ok_eq (lookup : String → Except String Encoder)
    (fmt : Int → String) (msg : PyMessage) (name : String) (enc : Encoder)
    (hok : lookup name = .ok enc) (hne : name ≠ "") :
    MessageInfo.compose lookup fmt msg name =
      .ok { tabIds := [TabId.markdown_content.id, TabId.tokens.id, TabId.metadata.id],
            switcherInitial := "markdown-content",
            markdownContent := pyStrOr msg.content,
            tokensView := enc.encode (pyStrOr msg.content),
            timestampText :=
              "Message sent at " ++ fmt (dictGetD msg.additional_kwargs "timestamp" 0),
            tokenCountText :=
              toString (enc.encode (pyStrOr msg.content)).length ++ " tokens" } := by
  simp [MessageInfo.compose, hok, if_neg hne]

/-- C2: the tab-selection state machine.  For every constructed modal
(any message content), the content switcher starts at the identifier of
the markdown tab; a tab-activation event for any of the three tabs sets
the current selection to exactly that identifier (last-write-wins, no
other transition); activating tokens then metadata leaves the current
view at metadata. -/
theorem tab_state_machine (lookup : String → Except String Encoder)
    (fmt : Int → String) (msg : PyMessage) (name : String) (enc : Encoder)
    (hok : lookup name = .ok enc) (hne : name ≠ "") :
    (∃ m, MessageInfo.compose lookup fmt msg name = .ok m ∧
       m.switcherInitial = TabId.markdown_content.id) ∧
    (∀ s : SwitcherState, ∀ t : TabId, (tab_activated s t).current = some t.id) ∧
    (∀ s : SwitcherState,
       (tab_activated (tab_activated s TabId.tokens) TabId.metadata).current =
         some TabId.metadata.id) := by
  refine ⟨⟨_, MessageInfo.compose_ok_eq lookup fmt msg name enc hok hne, rfl⟩, ?_, ?_⟩ <;>
    intros <;> rfl

/-- C2 witness at concrete inputs. -/
theorem tab_state_machine_witness :
    (tab_activated (tab_activated initialSwitcher TabId.tokens) TabId.metadata).current =
      some "metadata" :=
  (tab_state_machine demoLookup demoFmt demoMsg "gpt-3.5-turbo" demoEncoder rfl
    (by decide)).2.2 initialSwitcher

/-- C3: an unrecognized model name makes the tokenizer lookup raise, the
error propagates uncaught out of compose, and no (partially built)
widget tree is returned: the result is exactly the lookup error. -/
theorem unknown_model_fails_compose (lookup : String → Except String Encoder)
    (fmt : Int → String) (msg : PyMessage) (name e : String)
    (herr : lookup name = .error e) :
    MessageInfo.compose lookup fmt msg name = .error (.tokenizerLookup e) := by
  simp [MessageInfo.compose, herr]

/-- C3 witness: composing with "not-a-real-model" fails with the
propagated lookup error. -/
theorem unknown_model_fails_compose_witness :
    MessageInfo.compose demoLookup demoFmt demoMsg "not-a-real-model" =
      .error (.tokenizerLookup "KeyError") :=
  unknown_model_fails_compose demoLookup demoFmt demoMsg "not-a-real-model" "KeyError" rfl

/-- C7: absent or empty message content is treated as the empty string,
encodes (under the precondition that the encoder sends the empty string
to the empty token sequence) to no tokens, and the footer token count is
0.  Missing content is not an error: compose succeeds. -/
theorem empty_content_zero_tokens (lookup : String → Except String Encoder)
    (fmt : Int → String) (msg : PyMessage) (name : String) (enc : Encoder)
    (hok : lookup name = .ok enc) (hne : name ≠ "")
    (henc : enc.encode "" = [])
    (hcontent : msg.content = none ∨ msg.content = some "") :
    ∃ m, MessageInfo.compose lookup fmt msg name = .ok m ∧
      m.markdownContent = "" ∧ m.tokensView = [] ∧ m.tokenCountText = "0 tokens" := by
  have hc : pyStrOr msg.content = "" := by
    rcases hcontent with h | h <;> simp [pyStrOr, h]
  refine ⟨_, MessageInfo.compose_ok_eq lookup fmt msg name enc hok hne, hc, ?_, ?_⟩
  · simp [hc, henc]
  · simp only [hc, henc, List.length_nil]
    rfl

/-- C7 witness at concrete inputs (a message with absent content). -/
theorem empty_content_zero_tokens_witness :
    (MessageInfo.compose demoLookup demoFmt emptyMsg "gpt-3.5-turbo").map
      ComposedModal.tokenCountText = .ok "0 tokens" := by
  obtain ⟨m, hm, -, -, hc⟩ :=
    empty_content_zero_tokens demoLookup demoFmt emptyMsg "gpt-3.5-turbo" demoEncoder rfl
      (by decide) rfl (Or.inl rfl)
  rw [hm]
  simp [Except.map, hc]

/-- C8: a message whose metadata has no timestamp key does not make
compose fail; the timestamp defaults to 0 and the footer shows the
formatter applied to 0, through the normal formatting path. -/
theorem missing_timestamp_formats_zero (lookup : String → Except String Encoder)
    (fmt : Int → String) (msg : PyMessage) (name : String) (enc : Encoder)
    (hok : lookup name = .ok enc) (hne : name ≠ "")
    (hts : ∀ p ∈ msg.additional_kwargs, p.1 ≠ "timestamp") :
    ∃ m, MessageInfo.compose lookup fmt msg name = .ok m ∧
      m.timestampText = "Message sent at " ++ fmt 0 := by
  have hfind : msg.additional_kwargs.find? (fun p => p.1 = "timestamp") = none := by
    rw [List.find?_eq_none]
    intro p hp
    simpa using hts p hp
  exact ⟨_, MessageInfo.compose_ok_eq lookup fmt msg name enc hok hne, by
    simp [dictGetD, hfind]⟩

/-- C8 witness at concrete inputs (a message with empty metadata). -/
theorem missing_timestamp_formats_zero_witness :
    (MessageInfo.compose demoLookup demoFmt demoMsg "gpt-3.5-turbo").map
      ComposedModal.timestampText = .ok "Message sent at 0" := by
  obtain ⟨m, hm, ht⟩ :=
    missing_timestamp_formats_zero demoLookup demoFmt demoMsg "gpt-3.5-turbo" demoEncoder rfl
      (by decide) (by simp [demoMsg])
  rw [hm]
  simp only [Except.map]
  rw [ht]
  rfl

/-- C10: token_count is assigned only under the guard that model_name
is truthy, but every model name the tokenizer lookup accepts is
non-empty (the lookup rejects the empty string), so reaching the footer
implies the guard held: compose never hits the unbound-variable error
and the footer shows the length of the encoded token sequence. -/
theorem token_count_always_assigned (lookup : String → Except String Encoder)
    (fmt : Int → String) (msg : PyMessage) (name : String) (enc : Encoder)
    (hok : lookup name = .ok enc)
    (hempty : ∀ e2 : Encoder, lookup "" ≠ .ok e2) :
    ∃ m, MessageInfo.compose lookup fmt msg name = .ok m ∧
      m.tokenCountText = toString (enc.encode (pyStrOr msg.content)).length ++ " tokens" := by
  have hne : name ≠ "" := by
    intro h
    subst h
    exact hempty enc hok
  exact ⟨_, MessageInfo.compose_ok_eq lookup fmt msg name enc hok hne, rfl⟩

/-- C10 witness at concrete inputs (demo encoder: one token per
character, so "hi" has 2 tokens). -/
theorem token_count_always_assigned_witness :
    (MessageInfo.compose demoLookup demoFmt demoMsg "gpt-3.5-turbo").map
      ComposedModal.tokenCountText = .ok "2 tokens" := by
  obtain ⟨m, hm, hc⟩ :=
    token_count_always_assigned demoLookup demoFmt demoMsg "gpt-3.5-turbo" demoEncoder rfl
      (fun e2 h => Except.noConfusion h)
  rw [hm]
  simp only [Except.map]
  rw [hc]
  rfl
